import Mathlib

/-!
Shallow embedding of the jxpush core subsystems: the token bucket and
dual-window rate limiter (src/unnamed/part_006), the exponential backoff
calculator (src/unnamed/part_004), the retry engine
(src/src/retry/RetryEngine.ts) with its retryability classifier
(src/unnamed/part_000), and the in-memory priority queue
(src/unnamed/part_003).

Modelling conventions:
* JavaScript numbers are embedded as ℚ (the concrete values appearing in the
  claims are exactly representable); `Math.floor`/`Math.ceil` become
  `Int.floor`/`Int.ceil`.
* `Date.now()` becomes an explicit `now : ℚ` argument threaded through every
  operation that reads the clock; object mutation becomes explicit state
  passing (each method returns its result together with the updated object).
* `Math.random()` becomes an explicit `rand : ℚ` argument with 0 ≤ rand < 1.
* A thrown exception becomes an `Except`/`Bool` result; asynchronous sleeps,
  logging and observability hooks do not affect the data flow the claims are
  about and are dropped from the embedding.
-/

namespace JxPush

/-! ## TokenBucket (src/unnamed/part_006, class TokenBucket) -/

structure TokenBucket where
  capacity : ℚ
  refillRate : ℚ
  tokens : ℚ
  lastRefill : ℚ
  deriving Repr, DecidableEq

namespace TokenBucket

/-- `new TokenBucket(capacity, refillRate)`: starts full, clock at `now`. -/
def create (capacity refillRate now : ℚ) : TokenBucket :=
  { capacity := capacity, refillRate := refillRate, tokens := capacity,
    lastRefill := now }

/-- `refill()`: lazy refill based on elapsed time, capped at capacity. -/
def refill (b : TokenBucket) (now : ℚ) : TokenBucket :=
  let timePassed := now - b.lastRefill
  let tokensToAdd := timePassed * b.refillRate
  { b with tokens := min b.capacity (b.tokens + tokensToAdd), lastRefill := now }

/-- `tryConsume(count)`: refill, then deduct if enough tokens. -/
def tryConsume (b : TokenBucket) (count now : ℚ) : Bool × TokenBucket :=
  let b := b.refill now
  if count ≤ b.tokens then (true, { b with tokens := b.tokens - count })
  else (false, b)

/-- `getWaitTime(count)`: refill, then 0 if available else
`Math.ceil(tokensNeeded / refillRate)`. -/
def getWaitTime (b : TokenBucket) (count now : ℚ) : ℤ × TokenBucket :=
  let b := b.refill now
  if count ≤ b.tokens then (0, b)
  else (Int.ceil ((count - b.tokens) / b.refillRate), b)

/-- `getTokenCount()`: refill, then report the level. -/
def getTokenCount (b : TokenBucket) (now : ℚ) : ℚ × TokenBucket :=
  let b := b.refill now
  (b.tokens, b)

/-- Spec-side abbreviation: the token level right after the lazy refill at
time `now` (not a source method; used to state closed-form theorems). -/
def refilledLevel (b : TokenBucket) (now : ℚ) : ℚ :=
  min b.capacity (b.tokens + (now - b.lastRefill) * b.refillRate)

/-- Spec-side abbreviation: the token level after `tryConsume(count)` at
time `now` — debited when the refilled level covers the count, untouched
(apart from the refill) otherwise. -/
def postAttemptLevel (b : TokenBucket) (count now : ℚ) : ℚ :=
  if count ≤ b.refilledLevel now then b.refilledLevel now - count
  else b.refilledLevel now

end TokenBucket

/-! ## RateLimiter (src/unnamed/part_006, class RateLimiter) -/

/-- `RateLimitConfig` as passed to the constructor: every field optional,
defaulted with `??` inside the constructor. -/
structure RateLimitConfig where
  maxPerSecond : Option ℚ := none
  maxPerMinute : Option ℚ := none
  enabled : Option Bool := none
  allowBurst : Option Bool := none
  burstMultiplier : Option ℚ := none

/-- The resolved `Required<RateLimitConfig>` stored on the instance. -/
structure RateLimitConfigR where
  maxPerSecond : ℚ
  maxPerMinute : ℚ
  enabled : Bool
  allowBurst : Bool
  burstMultiplier : ℚ
  deriving Repr, DecidableEq

structure RateLimiter where
  config : RateLimitConfigR
  perSecondBucket : TokenBucket
  perMinuteBucket : TokenBucket
  deriving Repr, DecidableEq

namespace RateLimiter

/-- The constructor's defaulting of the config record. -/
def resolveConfig (config : RateLimitConfig) : RateLimitConfigR :=
  { maxPerSecond := config.maxPerSecond.getD 100,
    maxPerMinute := config.maxPerMinute.getD 3000,
    enabled := config.enabled.getD true,
    allowBurst := config.allowBurst.getD true,
    burstMultiplier := config.burstMultiplier.getD (3/2) }

/-- `new RateLimiter(config, logger)` at clock time `now`: derives bucket
capacities (`Math.floor(max * burstMultiplier)` when burst is allowed) and
refill rates `max/1000` and `max/60000` tokens per millisecond. -/
def create (config : RateLimitConfig) (now : ℚ) : RateLimiter :=
  let cfg := resolveConfig config
  let perSecondCapacity : ℚ :=
    if cfg.allowBurst then ((Int.floor (cfg.maxPerSecond * cfg.burstMultiplier) : ℤ) : ℚ)
    else cfg.maxPerSecond
  let perMinuteCapacity : ℚ :=
    if cfg.allowBurst then ((Int.floor (cfg.maxPerMinute * cfg.burstMultiplier) : ℤ) : ℚ)
    else cfg.maxPerMinute
  { config := cfg,
    perSecondBucket := TokenBucket.create perSecondCapacity (cfg.maxPerSecond / 1000) now,
    perMinuteBucket := TokenBucket.create perMinuteCapacity (cfg.maxPerMinute / 60000) now }

/-- Result of `acquire`: `{ success, waitMs }`. -/
structure AcquireResult where
  success : Bool
  waitMs : ℤ
  deriving Repr, DecidableEq

/-- `acquire(count)`: consume from both buckets (both `tryConsume` calls are
evaluated unconditionally); on failure, report
`max(waitPerSecond, waitPerMinute)` computed on the post-attempt buckets. -/
def acquire (rl : RateLimiter) (count now : ℚ) : AcquireResult × RateLimiter :=
  if rl.config.enabled = false then ({ success := true, waitMs := 0 }, rl)
  else
    let (canConsumePerSecond, s1) := rl.perSecondBucket.tryConsume count now
    let (canConsumePerMinute, m1) := rl.perMinuteBucket.tryConsume count now
    if canConsumePerSecond && canConsumePerMinute then
      ({ success := true, waitMs := 0 },
       { rl with perSecondBucket := s1, perMinuteBucket := m1 })
    else
      let (waitPerSecond, s2) := s1.getWaitTime count now
      let (waitPerMinute, m2) := m1.getWaitTime count now
      ({ success := false, waitMs := max waitPerSecond waitPerMinute },
       { rl with perSecondBucket := s2, perMinuteBucket := m2 })

/-- `reset()`: recreate both buckets with capacities `maxPerSecond` /
`maxPerMinute` (no burst headroom) and full token levels. -/
def reset (rl : RateLimiter) (now : ℚ) : RateLimiter :=
  { rl with
    perSecondBucket :=
      TokenBucket.create rl.config.maxPerSecond (rl.config.maxPerSecond / 1000) now,
    perMinuteBucket :=
      TokenBucket.create rl.config.maxPerMinute (rl.config.maxPerMinute / 60000) now }

/-- Number of consecutive successful `acquire(1)` calls at a fixed instant
`now`, bounded by `fuel` (spec-side observer used to compare limiters). -/
def consecutiveAdmits (rl : RateLimiter) (now : ℚ) : ℕ → ℕ
  | 0 => 0
  | fuel + 1 =>
    let (r, rl') := rl.acquire 1 now
    if r.success then consecutiveAdmits rl' now fuel + 1 else 0

end RateLimiter

/-! ## Backoff calculator (src/unnamed/part_004, calculateBackoff) -/

/-- `calculateBackoff(attempt, initialDelayMs, maxDelayMs, multiplier,
useJitter)`; `rand` stands for the `Math.random()` draw. -/
def calculateBackoff (attempt : ℕ) (initialDelayMs maxDelayMs multiplier : ℚ)
    (useJitter : Bool) (rand : ℚ) : ℤ :=
  let delay := initialDelayMs * multiplier ^ attempt
  let delay := min delay maxDelayMs
  let delay :=
    if useJitter then
      let jitterRange := delay * (1/4)
      let jitter := rand * jitterRange * 2 - jitterRange
      max 0 (delay + jitter)
    else delay
  Int.floor delay

/-! ## PushError and retryability classifier (src/unnamed/part_000) -/

/-- A JavaScript `Error` as seen by the classifier: either a structured
`PushError` (with its `code` string and `retryable` flag) or a plain error
carrying only a message. -/
inductive JsError where
  | push (message : String) (code : String) (retryable : Bool)
  | plain (message : String)
  deriving Repr, DecidableEq

/-- Executable substring test used to embed the regex pattern matches. -/
def strHasPre : List Char → List Char → Bool
  | [], _ => true
  | _ :: _, [] => false
  | a :: as, b :: bs => a == b && strHasPre as bs

def strHasSubAux (needle : List Char) : List Char → Bool
  | [] => strHasPre needle []
  | b :: bs => strHasPre needle (b :: bs) || strHasSubAux needle bs

def strHasSub (needle hay : String) : Bool :=
  strHasSubAux needle.toList hay.toList

/-- The `retryablePatterns` table: `/timeout/i, /ETIMEDOUT/i, /ECONNRESET/i,
/ENOTFOUND/i, /ECONNREFUSED/i, /503/, /502/, /429/, /500/`; the
case-insensitive ones are tested against the lower-cased message. -/
def retryablePatternsMatch (message : String) : Bool :=
  let lower := message.toLower
  strHasSub "timeout" lower || strHasSub "etimedout" lower ||
  strHasSub "econnreset" lower || strHasSub "enotfound" lower ||
  strHasSub "econnrefused" lower ||
  strHasSub "503" message || strHasSub "502" message ||
  strHasSub "429" message || strHasSub "500" message

namespace PushError

/-- `PushError.isRetryable(error)`: a `PushError`'s own flag, otherwise the
pattern match on the message. -/
def isRetryable : JsError → Bool
  | .push _ _ retryable => retryable
  | .plain message => retryablePatternsMatch message

end PushError

/-! ## RetryEngine (src/src/retry/RetryEngine.ts) -/

/-- `RetryConfig` as passed to the constructor, every field optional. -/
structure RetryConfig where
  maxAttempts : Option ℕ := none
  initialDelayMs : Option ℚ := none
  maxDelayMs : Option ℚ := none
  backoffMultiplier : Option ℚ := none
  enabled : Option Bool := none
  useJitter : Option Bool := none

/-- The resolved `Required<RetryConfig>` stored on the engine. -/
structure RetryConfigR where
  maxAttempts : ℕ
  initialDelayMs : ℚ
  maxDelayMs : ℚ
  backoffMultiplier : ℚ
  enabled : Bool
  useJitter : Bool
  deriving Repr, DecidableEq

namespace RetryEngine

/-- The constructor's defaulting of the config record. -/
def resolveConfig (config : RetryConfig) : RetryConfigR :=
  { maxAttempts := config.maxAttempts.getD 3,
    initialDelayMs := config.initialDelayMs.getD 1000,
    maxDelayMs := config.maxDelayMs.getD 30000,
    backoffMultiplier := config.backoffMultiplier.getD 2,
    enabled := config.enabled.getD true,
    useJitter := config.useJitter.getD true }

/-- The `for (attempt = 0; attempt < maxAttempts; attempt++)` loop of
`execute`, with `fuel = maxAttempts - attempt` iterations left.  The
operation `fn` is modelled by the outcome of each invocation
(`fn i` is what the `i`-th call returns or throws); the pair returned is
(outcome of `execute`, number of invocations of `fn`).  `none` models the
`throw lastError!` after the loop with `lastError` still undefined, reachable
only when the loop body never ran (`maxAttempts = 0`). -/
def executeLoop {A : Type} (fn : ℕ → Except JsError A) (maxAttempts : ℕ) :
    ℕ → ℕ → Option (Except JsError A) × ℕ
  | _, 0 => (none, 0)
  | attempt, fuel + 1 =>
    match fn attempt with
    | .ok a => (some (.ok a), 1)
    | .error e =>
      if attempt = maxAttempts - 1 ∨ PushError.isRetryable e = false then
        (some (.error e), 1)
      else
        let (r, n) := executeLoop fn maxAttempts (attempt + 1) fuel
        (r, n + 1)

/-- `execute(fn)`: passthrough when the engine is disabled, otherwise the
retry loop from attempt 0. -/
def execute {A : Type} (cfg : RetryConfigR) (fn : ℕ → Except JsError A) :
    Option (Except JsError A) × ℕ :=
  if cfg.enabled = false then (some (fn 0), 1)
  else executeLoop fn cfg.maxAttempts 0 cfg.maxAttempts

/-- `{...this.config, ...customConfig}`: fields present in the override win. -/
def mergeConfig (cfg : RetryConfigR) (custom : RetryConfig) : RetryConfigR :=
  { maxAttempts := custom.maxAttempts.getD cfg.maxAttempts,
    initialDelayMs := custom.initialDelayMs.getD cfg.initialDelayMs,
    maxDelayMs := custom.maxDelayMs.getD cfg.maxDelayMs,
    backoffMultiplier := custom.backoffMultiplier.getD cfg.backoffMultiplier,
    enabled := custom.enabled.getD cfg.enabled,
    useJitter := custom.useJitter.getD cfg.useJitter }

/-- `executeWithConfig(fn, customConfig)`: save the config, install the
merged one, run `execute`, and in `finally` restore the saved config whether
the call resolved or threw.  The second component is the engine's config
after the call returns. -/
def executeWithConfig {A : Type} (cfg : RetryConfigR) (custom : RetryConfig)
    (fn : ℕ → Except JsError A) :
    (Option (Except JsError A) × ℕ) × RetryConfigR :=
  let originalConfig := cfg
  let merged := mergeConfig cfg custom
  let result := execute merged fn
  (result, originalConfig)

end RetryEngine

/-! ## InMemoryQueue (src/unnamed/part_003) -/

/-- `QueueItem`; `Date.now()` yields integer milliseconds, so queue
timestamps are ℕ. -/
structure QueueItem (M : Type) where
  id : String
  message : M
  priority : ℤ
  addedAt : ℕ
  attempts : ℕ
  deriving Repr, DecidableEq

structure InMemoryQueue (M : Type) where
  queue : List (QueueItem M)
  maxSize : ℕ
  idCounter : ℕ
  deriving Repr, DecidableEq

namespace InMemoryQueue

variable {M : Type}

/-- The comparator `(a, b) => b.priority - a.priority` as an order relation:
`a` may come before `b` iff `b.priority ≤ a.priority` (higher first).
`Array.prototype.sort` is a stable sort (ES2019), embedded as a stable
insertion sort. -/
def sortQueue (l : List (QueueItem M)) : List (QueueItem M) :=
  l.insertionSort (fun a b => b.priority ≤ a.priority)

/-- `new InMemoryQueue(maxSize, logger)` (`maxSize = 0` means unbounded). -/
def create (maxSize : ℕ) : InMemoryQueue M :=
  { queue := [], maxSize := maxSize, idCounter := 0 }

/-- `enqueue(message, priority)`: throws when the size limit is reached
(before any mutation), else appends the new item and re-sorts descending by
priority.  Returns the thrown message or the new item's id, with the queue
state after the call. -/
def enqueue (q : InMemoryQueue M) (message : M) (priority : ℤ) (now : ℕ) :
    Except String String × InMemoryQueue M :=
  if 0 < q.maxSize ∧ q.maxSize ≤ q.queue.length then
    (.error ("Queue is full (max size: " ++ toString q.maxSize ++ ")"), q)
  else
    let counter := q.idCounter + 1
    let id := "queue-" ++ toString counter ++ "-" ++ toString now
    let item : QueueItem M :=
      { id := id, message := message, priority := priority, addedAt := now,
        attempts := 0 }
    (.ok id,
     { q with queue := sortQueue (q.queue ++ [item]), idCounter := counter })

/-- `dequeue()`: `Array.prototype.shift` — removes and returns the first
element, or `undefined` on an empty queue. -/
def dequeue (q : InMemoryQueue M) : Option (QueueItem M) × InMemoryQueue M :=
  match q.queue with
  | [] => (none, q)
  | item :: rest => (some item, { q with queue := rest })

/-- `remove(id)`: `findIndex` + `splice` — removes the first item with the
given id, reporting whether one was found. -/
def remove (q : InMemoryQueue M) (id : String) : Bool × InMemoryQueue M :=
  if q.queue.any (fun item => item.id == id) then
    (true, { q with queue := q.queue.eraseP (fun item => item.id == id) })
  else (false, q)

/-- `size()`. -/
def size (q : InMemoryQueue M) : ℕ := q.queue.length

/-- One operation of the queue's external interface, for stating properties
over arbitrary operation sequences. -/
inductive QueueOp (M : Type) where
  | enq (message : M) (priority : ℤ) (now : ℕ)
  | deq
  | rem (id : String)

/-- Apply one operation, discarding its output. -/
def applyOp (q : InMemoryQueue M) : QueueOp M → InMemoryQueue M
  | .enq message priority now => (q.enqueue message priority now).2
  | .deq => (q.dequeue).2
  | .rem id => (q.remove id).2

/-- Run a sequence of operations from a freshly constructed queue. -/
def runOps (maxSize : ℕ) (ops : List (QueueOp M)) : InMemoryQueue M :=
  ops.foldl applyOp (create maxSize)

instance : IsTotal (QueueItem M) (fun a b => b.priority ≤ a.priority) :=
  ⟨fun a b => le_total b.priority a.priority⟩

instance : IsTrans (QueueItem M) (fun a b => b.priority ≤ a.priority) :=
  ⟨fun _ _ _ h1 h2 => le_trans h2 h1⟩

/-- The queue invariant: the stored list is sorted descending by priority
(the comparator's order). -/
def SortedQ (q : InMemoryQueue M) : Prop :=
  q.queue.Sorted (fun a b => b.priority ≤ a.priority)

end InMemoryQueue

/-! ## Concrete instances referred to by the claims -/

/-- A limiter with maxPerSecond 10, maxPerMinute 1, burst disabled,
constructed at time 0 (used to exhibit partial consumption in `acquire`). -/
def c1Limiter : RateLimiter :=
  RateLimiter.create
    { maxPerSecond := some 10, maxPerMinute := some 1,
      allowBurst := some false } 0

/-- A limiter with maxPerSecond 2 and maxPerMinute 1000, all other options
defaulted, constructed at time 0 (the spec's P4 configuration). -/
def c2Limiter : RateLimiter :=
  RateLimiter.create { maxPerSecond := some 2, maxPerMinute := some 1000 } 0

/-- The P4 configuration with burst disabled, constructed at time 0. -/
def c2LimiterNoBurst : RateLimiter :=
  RateLimiter.create
    { maxPerSecond := some 2, maxPerMinute := some 1000,
      allowBurst := some false } 0

/-- A limiter with maxPerSecond = maxPerMinute = 1 and default burst
options, constructed at time 0. -/
def oneLimiter : RateLimiter :=
  RateLimiter.create { maxPerSecond := some 1, maxPerMinute := some 1 } 0

/-- A limiter with maxPerSecond = maxPerMinute = 2 and default burst
options, constructed at time 0. -/
def twoLimiter : RateLimiter :=
  RateLimiter.create { maxPerSecond := some 2, maxPerMinute := some 2 } 0

/-! ## Helper lemmas -/

namespace TokenBucket

theorem refill_tokens (b : TokenBucket) (now : ℚ) :
    (b.refill now).tokens = b.refilledLevel now := rfl

theorem refill_lastRefill (b : TokenBucket) (now : ℚ) :
    (b.refill now).lastRefill = now := rfl

theorem refilledLevel_of_lastRefill (b : TokenBucket) (now : ℚ)
    (hlast : b.lastRefill = now) (hcap : b.tokens ≤ b.capacity) :
    b.refilledLevel now = b.tokens := by
  simp [refilledLevel, hlast, min_eq_right hcap]

theorem tryConsume_fst (b : TokenBucket) (n now : ℚ) :
    (b.tryConsume n now).1 = decide (n ≤ b.refilledLevel now) := by
  unfold tryConsume refill
  dsimp only
  split_ifs with h <;> simp [refilledLevel, h] at *

theorem tryConsume_tokens (b : TokenBucket) (n now : ℚ) :
    (b.tryConsume n now).2.tokens =
      if n ≤ b.refilledLevel now then b.refilledLevel now - n
      else b.refilledLevel now := by
  unfold tryConsume refill
  dsimp only
  rw [refilledLevel]
  split_ifs <;> rfl

theorem tryConsume_capacity (b : TokenBucket) (n now : ℚ) :
    (b.tryConsume n now).2.capacity = b.capacity := by
  unfold tryConsume refill
  dsimp only
  split_ifs <;> rfl

theorem tryConsume_refillRate (b : TokenBucket) (n now : ℚ) :
    (b.tryConsume n now).2.refillRate = b.refillRate := by
  unfold tryConsume refill
  dsimp only
  split_ifs <;> rfl

theorem tryConsume_lastRefill (b : TokenBucket) (n now : ℚ) :
    (b.tryConsume n now).2.lastRefill = now := by
  unfold tryConsume refill
  dsimp only
  split_ifs <;> rfl

theorem tryConsume_tokens_le_capacity (b : TokenBucket) (n now : ℚ)
    (hn : 0 ≤ n) : (b.tryConsume n now).2.tokens ≤ (b.tryConsume n now).2.capacity := by
  rw [tryConsume_tokens, tryConsume_capacity]
  have hmin : b.refilledLevel now ≤ b.capacity := min_le_left _ _
  split_ifs <;> linarith

theorem getWaitTime_fst (b : TokenBucket) (n now : ℚ) :
    (b.getWaitTime n now).1 =
      if n ≤ b.refilledLevel now then 0
      else Int.ceil ((n - b.refilledLevel now) / b.refillRate) := by
  unfold getWaitTime refill
  dsimp only
  rw [refilledLevel]
  split_ifs <;> rfl

theorem getWaitTime_tokens (b : TokenBucket) (n now : ℚ) :
    (b.getWaitTime n now).2.tokens = b.refilledLevel now := by
  unfold getWaitTime refill
  dsimp only
  rw [refilledLevel]
  split_ifs <;> rfl

end TokenBucket

namespace InMemoryQueue

variable {M : Type}

theorem enqueue_maxSize (q : InMemoryQueue M) (m : M) (p : ℤ) (t : ℕ) :
    (q.enqueue m p t).2.maxSize = q.maxSize := by
  unfold enqueue
  dsimp only
  split_ifs <;> rfl

theorem enqueue_not_full (q : InMemoryQueue M) (m : M) (p : ℤ) (t : ℕ)
    (h : ¬(0 < q.maxSize ∧ q.maxSize ≤ q.queue.length)) :
    (q.enqueue m p t).1.isOk = true ∧
    (q.enqueue m p t).2.queue.length = q.queue.length + 1 := by
  rw [enqueue, if_neg h]
  refine ⟨rfl, ?_⟩
  dsimp only
  rw [sortQueue, List.length_insertionSort, List.length_append]
  rfl

theorem enqueue_full (q : InMemoryQueue M) (m : M) (p : ℤ) (t : ℕ)
    (h : 0 < q.maxSize ∧ q.maxSize ≤ q.queue.length) :
    q.enqueue m p t =
      (.error ("Queue is full (max size: " ++ toString q.maxSize ++ ")"), q) := by
  rw [enqueue, if_pos h]

end InMemoryQueue



namespace TokenBucket

theorem postAttemptLevel_le_capacity (b : TokenBucket) (count now : ℚ)
    (hc : 0 ≤ count) : b.postAttemptLevel count now ≤ b.capacity := by
  have hmin : b.refilledLevel now ≤ b.capacity := min_le_left _ _
  rw [postAttemptLevel]
  split_ifs <;> linarith

theorem tryConsume_tokens_eq_postAttemptLevel (b : TokenBucket)
    (count now : ℚ) :
    (b.tryConsume count now).2.tokens = b.postAttemptLevel count now :=
  tryConsume_tokens b count now

end TokenBucket

namespace RateLimiter

/-- `acquire` with the pair destructuring flattened into projections. -/
theorem acquire_eq (rl : RateLimiter) (count now : ℚ) :
    rl.acquire count now =
      if rl.config.enabled = false then ({ success := true, waitMs := 0 }, rl)
      else if (rl.perSecondBucket.tryConsume count now).1 &&
          (rl.perMinuteBucket.tryConsume count now).1 then
        ({ success := true, waitMs := 0 },
         { rl with perSecondBucket := (rl.perSecondBucket.tryConsume count now).2,
                   perMinuteBucket := (rl.perMinuteBucket.tryConsume count now).2 })
      else
        ({ success := false,
           waitMs := max
             (((rl.perSecondBucket.tryConsume count now).2.getWaitTime count now).1)
             (((rl.perMinuteBucket.tryConsume count now).2.getWaitTime count now).1) },
         { rl with
           perSecondBucket :=
             ((rl.perSecondBucket.tryConsume count now).2.getWaitTime count now).2,
           perMinuteBucket :=
             ((rl.perMinuteBucket.tryConsume count now).2.getWaitTime count now).2 }) := by
  unfold acquire
  rcases hS : rl.perSecondBucket.tryConsume count now with ⟨cS, s1⟩
  rcases hM : rl.perMinuteBucket.tryConsume count now with ⟨cM, m1⟩
  rcases hSW : s1.getWaitTime count now with ⟨wS, s2⟩
  rcases hMW : m1.getWaitTime count now with ⟨wM, m2⟩
  simp [hS, hM, hSW, hMW]

end RateLimiter

/-! ## Claim theorems -/

/-- C5: for every n ≥ 0, `TokenBucket.tryConsume(n)` first applies the lazy
refill (elapsed · refillRate tokens, capped at capacity), then deducts n and
returns true iff the refilled level is at least n, otherwise returns false
leaving the level unchanged apart from the refill; `getWaitTime(n)` returns 0
when n tokens are available after refill, else
`ceil((n - currentTokens) / refillRatePerMs)`. -/
theorem tokenBucket_contract (b : TokenBucket) (n now : ℚ) (hn : 0 ≤ n) :
    ((b.tryConsume n now).1 = true ↔ n ≤ b.refilledLevel now) ∧
    (n ≤ b.refilledLevel now →
      (b.tryConsume n now).2.tokens = b.refilledLevel now - n) ∧
    (¬ n ≤ b.refilledLevel now →
      (b.tryConsume n now).2.tokens = b.refilledLevel now) ∧
    (n ≤ b.refilledLevel now → (b.getWaitTime n now).1 = 0) ∧
    (¬ n ≤ b.refilledLevel now →
      (b.getWaitTime n now).1 =
        Int.ceil ((n - b.refilledLevel now) / b.refillRate)) := by
  refine ⟨?_, fun h => ?_, fun h => ?_, fun h => ?_, fun h => ?_⟩
  · rw [TokenBucket.tryConsume_fst]; simp
  · rw [TokenBucket.tryConsume_tokens, if_pos h]
  · rw [TokenBucket.tryConsume_tokens, if_neg h]
  · rw [TokenBucket.getWaitTime_fst, if_pos h]
  · rw [TokenBucket.getWaitTime_fst, if_neg h]

/-- C5 witness: the spec's P3 scenario — a bucket with capacity 10 and refill
rate 1 token/ms that has just consumed all 10 tokens reports a 1 ms wait for
1 token and refuses an immediate `tryConsume(1)`. -/
theorem tokenBucket_contract_witness :
    (((TokenBucket.mk 10 1 0 0).tryConsume 1 0).1 = false) ∧
    ((TokenBucket.mk 10 1 0 0).getWaitTime 1 0).1 = 1 := by
  have h := tokenBucket_contract (TokenBucket.mk 10 1 0 0) 1 0 (by norm_num)
  have hlev : (TokenBucket.mk 10 1 0 0).refilledLevel 0 = 0 := by
    norm_num [TokenBucket.refilledLevel]
  constructor
  · have h1 := h.1
    rw [hlev] at h1
    simp only [show ¬((1:ℚ) ≤ 0) by norm_num, iff_false] at h1
    simpa using h1
  · have h5 := h.2.2.2.2
    rw [hlev] at h5
    have := h5 (by norm_num)
    rw [this]
    norm_num

/-- C6: the backoff calculator computes
`delay = min(initialDelay · multiplier^attempt, maxDelay)`; with jitter
disabled and initialDelay 1000, multiplier 2, maxDelay 5000 the delays for
attempts 0..3 are 1000, 2000, 4000, 5000; with jitter enabled the capped
delay is perturbed by at most ±25%, floored at 0, and the result is the
integer floor of that value. -/
theorem calculateBackoff_spec (a : ℕ) (i mx m r : ℚ)
    (hi : 0 ≤ i) (hm : 0 ≤ m) (hmx : 0 ≤ mx) (hr0 : 0 ≤ r) (hr1 : r < 1) :
    (calculateBackoff a i mx m false r = Int.floor (min (i * m ^ a) mx)) ∧
    (calculateBackoff 0 1000 5000 2 false r = 1000 ∧
     calculateBackoff 1 1000 5000 2 false r = 2000 ∧
     calculateBackoff 2 1000 5000 2 false r = 4000 ∧
     calculateBackoff 3 1000 5000 2 false r = 5000) ∧
    (calculateBackoff a i mx m true r =
       Int.floor (max 0 (min (i * m ^ a) mx +
         (r * (min (i * m ^ a) mx * (1/4)) * 2 - min (i * m ^ a) mx * (1/4)))) ∧
     |r * (min (i * m ^ a) mx * (1/4)) * 2 - min (i * m ^ a) mx * (1/4)| ≤
       min (i * m ^ a) mx * (1/4)) := by
  have hd : 0 ≤ min (i * m ^ a) mx := le_min (by positivity) hmx
  refine ⟨rfl, ⟨?_, ?_, ?_, ?_⟩, rfl, ?_⟩
  · norm_num [calculateBackoff]
  · norm_num [calculateBackoff]
  · norm_num [calculateBackoff]
  · norm_num [calculateBackoff]
  · rw [abs_le]
    constructor <;> nlinarith [hd, hr0, hr1.le]

/-- C6 witness: at attempt 0 with initialDelay 1000, maxDelay 5000,
multiplier 2 and the random draw 1/2 the jitter is 0, so both the jitter-free
and the jittered delay are exactly 1000. -/
theorem calculateBackoff_spec_witness :
    calculateBackoff 0 1000 5000 2 false (1/2) = 1000 ∧
    calculateBackoff 0 1000 5000 2 true (1/2) = 1000 := by
  have h := calculateBackoff_spec 0 1000 5000 2 (1/2)
    (by norm_num) (by norm_num) (by norm_num) (by norm_num) (by norm_num)
  refine ⟨h.2.1.1, ?_⟩
  have h3 := h.2.2.1
  rw [h3]
  norm_num

/-- C3: an operation that throws a retryable error on every invocation, run
through `RetryEngine.execute` with maxAttempts 3 and the engine enabled, is
invoked exactly 3 times; the call then throws, and the thrown error is the
one from the third invocation. -/
theorem execute_always_retryable (A : Type) (cfg : RetryConfigR)
    (fn : ℕ → Except JsError A) (e : ℕ → JsError)
    (hen : cfg.enabled = true) (hmax : cfg.maxAttempts = 3)
    (hfn : ∀ i, fn i = .error (e i))
    (hretry : ∀ i, PushError.isRetryable (e i) = true) :
    RetryEngine.execute cfg fn = (some (.error (e 2)), 3) := by
  unfold RetryEngine.execute
  rw [hmax, hen]
  simp [RetryEngine.executeLoop, hfn 0, hfn 1, hfn 2, hretry 0, hretry 1,
    hretry 2]

/-- C3 witness: an operation that always throws a `PushError` flagged
retryable, under the default config (maxAttempts 3, enabled), is invoked 3
times and the call throws that error. -/
theorem execute_always_retryable_witness :
    RetryEngine.execute (RetryEngine.resolveConfig {})
        (fun _ => (.error (.push "boom" "SEND_FAILED" true) : Except JsError Unit)) =
      (some (.error (.push "boom" "SEND_FAILED" true)), 3) :=
  execute_always_retryable Unit (RetryEngine.resolveConfig {})
    (fun _ => .error (.push "boom" "SEND_FAILED" true))
    (fun _ => .push "boom" "SEND_FAILED" true)
    rfl rfl (fun _ => rfl) (fun _ => rfl)

/-- C4: an operation that throws a non-retryable error (rejected by
`PushError.isRetryable`) on its first invocation is invoked exactly once by
`RetryEngine.execute`, and that error is propagated, for every
maxAttempts ≥ 1. -/
theorem execute_nonretryable_once (A : Type) (cfg : RetryConfigR)
    (fn : ℕ → Except JsError A) (e : JsError)
    (h0 : fn 0 = .error e) (hnr : PushError.isRetryable e = false)
    (hmax : 1 ≤ cfg.maxAttempts) :
    RetryEngine.execute cfg fn = (some (.error e), 1) := by
  unfold RetryEngine.execute
  split_ifs with hen
  · rw [h0]
  · obtain ⟨k, hk⟩ : ∃ k, cfg.maxAttempts = k + 1 := ⟨cfg.maxAttempts - 1, by omega⟩
    rw [hk]
    simp [RetryEngine.executeLoop, h0, hnr]

/-- C4 witness: an operation throwing a `PushError` flagged non-retryable,
under the default config (maxAttempts 3), is invoked exactly once. -/
theorem execute_nonretryable_once_witness :
    RetryEngine.execute (RetryEngine.resolveConfig {})
        (fun _ => (.error (.push "invalid token" "INVALID_TOKEN" false) :
          Except JsError Unit)) =
      (some (.error (.push "invalid token" "INVALID_TOKEN" false)), 1) :=
  execute_nonretryable_once Unit (RetryEngine.resolveConfig {})
    (fun _ => .error (.push "invalid token" "INVALID_TOKEN" false))
    (.push "invalid token" "INVALID_TOKEN" false)
    rfl rfl (by norm_num [RetryEngine.resolveConfig])

/-- C9: `executeWithConfig` runs the operation under the merged
configuration and afterwards the engine's configuration is exactly the prior
one — both when the run resolves and when it throws — so a subsequent
`execute` call observes the original configuration. -/
theorem executeWithConfig_scoped (A : Type) (cfg : RetryConfigR)
    (custom : RetryConfig) (fn : ℕ → Except JsError A) :
    ((RetryEngine.executeWithConfig cfg custom fn).1 =
       RetryEngine.execute (RetryEngine.mergeConfig cfg custom) fn) ∧
    (∀ a, (RetryEngine.executeWithConfig cfg custom fn).1.1 = some (.ok a) →
       (RetryEngine.executeWithConfig cfg custom fn).2 = cfg) ∧
    (∀ err, (RetryEngine.executeWithConfig cfg custom fn).1.1 = some (.error err) →
       (RetryEngine.executeWithConfig cfg custom fn).2 = cfg) ∧
    ((RetryEngine.executeWithConfig cfg custom fn).2 = cfg) ∧
    (∀ g : ℕ → Except JsError A,
       RetryEngine.execute (RetryEngine.executeWithConfig cfg custom fn).2 g =
         RetryEngine.execute cfg g) :=
  ⟨rfl, fun _ _ => rfl, fun _ _ => rfl, rfl, fun _ => rfl⟩

/-- C9 witness: with the default config, an override to maxAttempts 5 and an
operation that always throws a non-retryable error, the engine's
configuration after `executeWithConfig` is the original default config. -/
theorem executeWithConfig_scoped_witness :
    (RetryEngine.executeWithConfig (RetryEngine.resolveConfig {})
        { maxAttempts := some 5 }
        (fun _ => (.error (.push "bad" "INVALID_TOKEN" false) :
          Except JsError Unit))).2 =
      RetryEngine.resolveConfig {} :=
  (executeWithConfig_scoped Unit (RetryEngine.resolveConfig {})
    { maxAttempts := some 5 }
    (fun _ => .error (.push "bad" "INVALID_TOKEN" false))).2.2.2.1

/-- C7: on a queue constructed with maxSize 2, two enqueues succeed, a third
enqueue throws the capacity error and leaves the queue state exactly as it
was (size still 2, same stored items, which the throw-before-mutate control
flow guarantees). -/
theorem enqueue_capacity (M : Type) (m1 m2 m3 : M) (p1 p2 p3 : ℤ)
    (t1 t2 t3 : ℕ) :
    (((InMemoryQueue.create 2 : InMemoryQueue M).enqueue m1 p1 t1).1.isOk
      = true) ∧
    ((((InMemoryQueue.create 2 : InMemoryQueue M).enqueue m1 p1 t1).2.enqueue
        m2 p2 t2).1.isOk = true) ∧
    (((((InMemoryQueue.create 2 : InMemoryQueue M).enqueue m1 p1 t1).2.enqueue
        m2 p2 t2).2.enqueue m3 p3 t3).1 =
      .error "Queue is full (max size: 2)") ∧
    (((((InMemoryQueue.create 2 : InMemoryQueue M).enqueue m1 p1 t1).2.enqueue
        m2 p2 t2).2.enqueue m3 p3 t3).2 =
      (((InMemoryQueue.create 2 : InMemoryQueue M).enqueue m1 p1 t1).2.enqueue
        m2 p2 t2).2) ∧
    ((((InMemoryQueue.create 2 : InMemoryQueue M).enqueue m1 p1 t1).2.enqueue
        m2 p2 t2).2.size = 2) := by
  have h0ms : (InMemoryQueue.create 2 : InMemoryQueue M).maxSize = 2 := rfl
  have h0len : (InMemoryQueue.create 2 : InMemoryQueue M).queue.length = 0 := rfl
  have h0 := InMemoryQueue.enqueue_not_full
    (InMemoryQueue.create 2 : InMemoryQueue M) m1 p1 t1
    (by rw [h0ms, h0len]; omega)
  have h1ms := InMemoryQueue.enqueue_maxSize
    (InMemoryQueue.create 2 : InMemoryQueue M) m1 p1 t1
  rw [h0ms] at h1ms
  rw [h0len] at h0
  have h1 := InMemoryQueue.enqueue_not_full
    ((InMemoryQueue.create 2 : InMemoryQueue M).enqueue m1 p1 t1).2 m2 p2 t2
    (by rw [h1ms, h0.2]; omega)
  have h2ms := InMemoryQueue.enqueue_maxSize
    ((InMemoryQueue.create 2 : InMemoryQueue M).enqueue m1 p1 t1).2 m2 p2 t2
  rw [h1ms] at h2ms
  rw [h0.2] at h1
  have h2 := InMemoryQueue.enqueue_full
    (((InMemoryQueue.create 2 : InMemoryQueue M).enqueue m1 p1 t1).2.enqueue
      m2 p2 t2).2 m3 p3 t3
    (by rw [h2ms, h1.2]; omega)
  rw [h2ms] at h2
  refine ⟨h0.1, h1.1, ?_, ?_, ?_⟩
  · rw [h2]
    rfl
  · rw [h2]
  · rw [InMemoryQueue.size, h1.2]

/-- C1 counterexample: for `c1Limiter` (maxPerSecond 10, maxPerMinute 1,
burst off) and `acquire(2)` at time 0, the per-minute bucket cannot supply 2
tokens so the call fails — yet the per-second bucket's level drops from 10
to 8: the claim that neither bucket's level is reduced by a failing acquire
is false. -/
theorem acquire_not_unit_cex :
    ((c1Limiter.acquire 2 0).1.success = false) ∧
    c1Limiter.perSecondBucket.tokens = 10 ∧
    ((c1Limiter.acquire 2 0).2.perSecondBucket.tokens = 8) ∧
    ¬((c1Limiter.acquire 2 0).2.perSecondBucket.tokens =
        c1Limiter.perSecondBucket.tokens) := by
  rw [RateLimiter.acquire_eq]
  norm_num [c1Limiter, RateLimiter.create, RateLimiter.resolveConfig,
    TokenBucket.create, TokenBucket.tryConsume, TokenBucket.getWaitTime,
    TokenBucket.refill]

/-- C1 amended: when either bucket cannot supply `count` tokens (after
refill), `acquire(count)` reports failure with wait time
`max(waitPerSecond, waitPerMinute)`; however the two buckets are debited
independently: each bucket ends at its own post-attempt level — the bucket
that could supply the count is debited by it even though the overall acquire
failed, and only the failing bucket is left unchanged apart from the
refill.  The wait times are computed on these post-attempt levels. -/
theorem acquire_failure_partial (rl : RateLimiter) (count now : ℚ)
    (hc : 0 ≤ count) (hen : rl.config.enabled = true)
    (hfail : ¬(count ≤ rl.perSecondBucket.refilledLevel now ∧
               count ≤ rl.perMinuteBucket.refilledLevel now)) :
    ((rl.acquire count now).1.success = false) ∧
    ((rl.acquire count now).2.perSecondBucket.tokens =
      rl.perSecondBucket.postAttemptLevel count now) ∧
    ((rl.acquire count now).2.perMinuteBucket.tokens =
      rl.perMinuteBucket.postAttemptLevel count now) ∧
    ((rl.acquire count now).1.waitMs = max
      (if count ≤ rl.perSecondBucket.postAttemptLevel count now then 0
       else Int.ceil ((count - rl.perSecondBucket.postAttemptLevel count now) /
         rl.perSecondBucket.refillRate))
      (if count ≤ rl.perMinuteBucket.postAttemptLevel count now then 0
       else Int.ceil ((count - rl.perMinuteBucket.postAttemptLevel count now) /
         rl.perMinuteBucket.refillRate))) := by
  have hpost : ∀ b : TokenBucket,
      (b.tryConsume count now).2.refilledLevel now =
        b.postAttemptLevel count now := by
    intro b
    rw [TokenBucket.refilledLevel_of_lastRefill _ _
          (TokenBucket.tryConsume_lastRefill b count now)
          (TokenBucket.tryConsume_tokens_le_capacity b count now hc),
        TokenBucket.tryConsume_tokens_eq_postAttemptLevel]
  have hrate : ∀ b : TokenBucket,
      (b.tryConsume count now).2.refillRate = b.refillRate :=
    fun b => TokenBucket.tryConsume_refillRate b count now
  have hcond : ((rl.perSecondBucket.tryConsume count now).1 &&
      (rl.perMinuteBucket.tryConsume count now).1) = false := by
    rw [TokenBucket.tryConsume_fst, TokenBucket.tryConsume_fst]
    by_cases h1 : count ≤ rl.perSecondBucket.refilledLevel now <;>
      by_cases h2 : count ≤ rl.perMinuteBucket.refilledLevel now <;>
      simp [h1, h2]
    exact hfail ⟨h1, h2⟩
  rw [RateLimiter.acquire_eq, if_neg (by simp [hen]), if_neg (by simp [hcond])]
  refine ⟨rfl, ?_, ?_, ?_⟩
  · rw [TokenBucket.getWaitTime_tokens, hpost]
  · rw [TokenBucket.getWaitTime_tokens, hpost]
  · rw [TokenBucket.getWaitTime_fst, TokenBucket.getWaitTime_fst,
      hpost, hpost, hrate, hrate]

/-- C1 witness: the amended statement instantiated at `c1Limiter` with
`acquire(2)` at time 0. -/
theorem acquire_failure_partial_witness :
    ((c1Limiter.acquire 2 0).1.success = false) ∧
    ((c1Limiter.acquire 2 0).2.perSecondBucket.tokens =
      c1Limiter.perSecondBucket.postAttemptLevel 2 0) ∧
    ((c1Limiter.acquire 2 0).2.perMinuteBucket.tokens =
      c1Limiter.perMinuteBucket.postAttemptLevel 2 0) ∧
    ((c1Limiter.acquire 2 0).1.waitMs = max
      (if (2:ℚ) ≤ c1Limiter.perSecondBucket.postAttemptLevel 2 0 then 0
       else Int.ceil ((2 - c1Limiter.perSecondBucket.postAttemptLevel 2 0) /
         c1Limiter.perSecondBucket.refillRate))
      (if (2:ℚ) ≤ c1Limiter.perMinuteBucket.postAttemptLevel 2 0 then 0
       else Int.ceil ((2 - c1Limiter.perMinuteBucket.postAttemptLevel 2 0) /
         c1Limiter.perMinuteBucket.refillRate))) :=
  acquire_failure_partial c1Limiter 2 0 (by norm_num) rfl
    (by norm_num [c1Limiter, RateLimiter.create, RateLimiter.resolveConfig,
      TokenBucket.create, TokenBucket.refilledLevel])

/-- The P4 limiter's initial state: per-second capacity
`floor(2 * 1.5) = 3`, per-minute capacity `floor(1000 * 1.5) = 1500`. -/
theorem c2State0 : c2Limiter =
    ⟨⟨2, 1000, true, true, 3/2⟩, ⟨3, 1/500, 3, 0⟩, ⟨1500, 1/60, 1500, 0⟩⟩ := by
  norm_num [c2Limiter, RateLimiter.create, RateLimiter.resolveConfig,
    TokenBucket.create]

theorem c2Step1 : c2Limiter.acquire 1 0 =
    (⟨true, 0⟩,
     ⟨⟨2, 1000, true, true, 3/2⟩, ⟨3, 1/500, 2, 0⟩, ⟨1500, 1/60, 1499, 0⟩⟩) := by
  rw [c2State0, RateLimiter.acquire_eq]
  norm_num [TokenBucket.tryConsume, TokenBucket.refill]

theorem c2Step2 :
    (⟨⟨2, 1000, true, true, 3/2⟩, ⟨3, 1/500, 2, 0⟩, ⟨1500, 1/60, 1499, 0⟩⟩ :
        RateLimiter).acquire 1 0 =
    (⟨true, 0⟩,
     ⟨⟨2, 1000, true, true, 3/2⟩, ⟨3, 1/500, 1, 0⟩, ⟨1500, 1/60, 1498, 0⟩⟩) := by
  rw [RateLimiter.acquire_eq]
  norm_num [TokenBucket.tryConsume, TokenBucket.refill]

theorem c2Step3 :
    (⟨⟨2, 1000, true, true, 3/2⟩, ⟨3, 1/500, 1, 0⟩, ⟨1500, 1/60, 1498, 0⟩⟩ :
        RateLimiter).acquire 1 0 =
    (⟨true, 0⟩,
     ⟨⟨2, 1000, true, true, 3/2⟩, ⟨3, 1/500, 0, 0⟩, ⟨1500, 1/60, 1497, 0⟩⟩) := by
  rw [RateLimiter.acquire_eq]
  norm_num [TokenBucket.tryConsume, TokenBucket.refill]

theorem c2Step4 :
    (⟨⟨2, 1000, true, true, 3/2⟩, ⟨3, 1/500, 0, 0⟩, ⟨1500, 1/60, 1497, 0⟩⟩ :
        RateLimiter).acquire 1 0 =
    (⟨false, 500⟩,
     ⟨⟨2, 1000, true, true, 3/2⟩, ⟨3, 1/500, 0, 0⟩, ⟨1500, 1/60, 1496, 0⟩⟩) := by
  rw [RateLimiter.acquire_eq]
  norm_num [TokenBucket.tryConsume, TokenBucket.getWaitTime, TokenBucket.refill]

/-- C2 counterexample: for the P4 limiter (maxPerSecond 2, maxPerMinute 1000,
other options at their defaults, so allowBurst = true with multiplier 1.5),
the third `acquire(1)` within the same second returns success, not failure:
the burst default gives the per-second bucket capacity `floor(2·1.5) = 3`. -/
theorem third_acquire_succeeds_cex :
    (((c2Limiter.acquire 1 0).2.acquire 1 0).2.acquire 1 0).1.success
      = true := by
  rw [c2Step1]
  dsimp only
  rw [c2Step2]
  dsimp only
  rw [c2Step3]

/-- C2 amended: with the default burst options the per-second capacity is 3,
so the first three `acquire(1)` calls in the same second succeed and the
fourth fails even though the per-minute budget is far from exhausted (1497
of 1500 tokens remain); with `allowBurst = false` the per-second capacity is
exactly 2 and the third call is rejected as the spec intends. -/
theorem dual_window_burst_behaviour :
    ((c2Limiter.acquire 1 0).1.success = true) ∧
    (((c2Limiter.acquire 1 0).2.acquire 1 0).1.success = true) ∧
    ((((c2Limiter.acquire 1 0).2.acquire 1 0).2.acquire 1 0).1.success
      = true) ∧
    (((((c2Limiter.acquire 1 0).2.acquire 1 0).2.acquire 1 0).2.acquire
        1 0).1.success = false) ∧
    ((((c2Limiter.acquire 1 0).2.acquire 1 0).2.acquire 1 0).2.perMinuteBucket.tokens
      = 1497) ∧
    (((c2LimiterNoBurst.acquire 1 0).2.acquire 1 0).1.success = true) ∧
    ((((c2LimiterNoBurst.acquire 1 0).2.acquire 1 0).2.acquire 1 0).1.success
      = false) := by
  rw [c2Step1]
  dsimp only
  rw [c2Step2]
  dsimp only
  rw [c2Step3]
  dsimp only
  rw [c2Step4]
  have hnb0 : c2LimiterNoBurst =
      ⟨⟨2, 1000, true, false, 3/2⟩, ⟨2, 1/500, 2, 0⟩, ⟨1000, 1/60, 1000, 0⟩⟩ := by
    norm_num [c2LimiterNoBurst, RateLimiter.create, RateLimiter.resolveConfig,
      TokenBucket.create]
  have hnb1 : (⟨⟨2, 1000, true, false, 3/2⟩, ⟨2, 1/500, 2, 0⟩,
      ⟨1000, 1/60, 1000, 0⟩⟩ : RateLimiter).acquire 1 0 =
      (⟨true, 0⟩, ⟨⟨2, 1000, true, false, 3/2⟩, ⟨2, 1/500, 1, 0⟩,
        ⟨1000, 1/60, 999, 0⟩⟩) := by
    rw [RateLimiter.acquire_eq]
    norm_num [TokenBucket.tryConsume, TokenBucket.refill]
  have hnb2 : (⟨⟨2, 1000, true, false, 3/2⟩, ⟨2, 1/500, 1, 0⟩,
      ⟨1000, 1/60, 999, 0⟩⟩ : RateLimiter).acquire 1 0 =
      (⟨true, 0⟩, ⟨⟨2, 1000, true, false, 3/2⟩, ⟨2, 1/500, 0, 0⟩,
        ⟨1000, 1/60, 998, 0⟩⟩) := by
    rw [RateLimiter.acquire_eq]
    norm_num [TokenBucket.tryConsume, TokenBucket.refill]
  have hnb3 : ((⟨⟨2, 1000, true, false, 3/2⟩, ⟨2, 1/500, 0, 0⟩,
      ⟨1000, 1/60, 998, 0⟩⟩ : RateLimiter).acquire 1 0).1.success = false := by
    rw [RateLimiter.acquire_eq]
    norm_num [TokenBucket.tryConsume, TokenBucket.getWaitTime,
      TokenBucket.refill]
  rw [hnb0, hnb1]
  dsimp only
  rw [hnb2]
  dsimp only
  rw [hnb3]
  norm_num

theorem consecutiveAdmits_succ (rl : RateLimiter) (now : ℚ) (fuel : ℕ) :
    RateLimiter.consecutiveAdmits rl now (fuel + 1) =
      if (rl.acquire 1 now).1.success then
        RateLimiter.consecutiveAdmits (rl.acquire 1 now).2 now fuel + 1
      else 0 := by
  rcases h : rl.acquire 1 now with ⟨r, rl'⟩
  simp only [RateLimiter.consecutiveAdmits, h]

theorem oneState0 : oneLimiter =
    ⟨⟨1, 1, true, true, 3/2⟩, ⟨1, 1/1000, 1, 0⟩, ⟨1, 1/60000, 1, 0⟩⟩ := by
  norm_num [oneLimiter, RateLimiter.create, RateLimiter.resolveConfig,
    TokenBucket.create]

/-- For maxPerSecond = maxPerMinute = 1 the burst capacities
`floor(1 · 1.5) = 1` coincide with the plain maxima, so `reset` reproduces
the freshly constructed limiter exactly. -/
theorem oneLimiter_reset_eq : oneLimiter.reset 0 = oneLimiter := by
  rw [oneState0]
  norm_num [RateLimiter.reset, TokenBucket.create]

theorem twoState0 : twoLimiter =
    ⟨⟨2, 2, true, true, 3/2⟩, ⟨3, 1/500, 3, 0⟩, ⟨3, 1/30000, 3, 0⟩⟩ := by
  norm_num [twoLimiter, RateLimiter.create, RateLimiter.resolveConfig,
    TokenBucket.create]

theorem twoReset : twoLimiter.reset 0 =
    ⟨⟨2, 2, true, true, 3/2⟩, ⟨2, 1/500, 2, 0⟩, ⟨2, 1/30000, 2, 0⟩⟩ := by
  rw [twoState0]
  norm_num [RateLimiter.reset, TokenBucket.create]

/-- One successful `acquire(1)` step at time 0 on a limiter whose two
buckets were last refilled at 0 and hold at least one token each. -/
theorem acquire_success_step (cfg : RateLimitConfigR) (cs rs cm rm ts tm : ℚ)
    (hen : cfg.enabled = true) (hs : 1 ≤ ts) (hm : 1 ≤ tm)
    (hcs : ts ≤ cs) (hcm : tm ≤ cm) :
    (⟨cfg, ⟨cs, rs, ts, 0⟩, ⟨cm, rm, tm, 0⟩⟩ : RateLimiter).acquire 1 0 =
      (⟨true, 0⟩, ⟨cfg, ⟨cs, rs, ts - 1, 0⟩, ⟨cm, rm, tm - 1, 0⟩⟩) := by
  rw [RateLimiter.acquire_eq]
  norm_num [TokenBucket.tryConsume, TokenBucket.refill, hen, hs, hm,
    min_eq_right hcs, min_eq_right hcm]

/-- A failing `acquire(1)` step at time 0 on a limiter whose two buckets
were last refilled at 0 and are both empty. -/
theorem acquire_fail_step (cfg : RateLimitConfigR) (cs rs cm rm : ℚ)
    (hen : cfg.enabled = true) (hcs : 0 ≤ cs) (hcm : 0 ≤ cm) :
    ((⟨cfg, ⟨cs, rs, 0, 0⟩, ⟨cm, rm, 0, 0⟩⟩ :
        RateLimiter).acquire 1 0).1.success = false := by
  rw [RateLimiter.acquire_eq]
  norm_num [TokenBucket.tryConsume, TokenBucket.getWaitTime, TokenBucket.refill,
    hen, min_eq_right hcs, min_eq_right hcm]

theorem oneLimiter_admits : RateLimiter.consecutiveAdmits oneLimiter 0 5 = 1 := by
  rw [oneState0, show (5:ℕ) = 4 + 1 from rfl, consecutiveAdmits_succ,
    acquire_success_step ⟨1, 1, true, true, 3/2⟩ 1 (1/1000) 1 (1/60000) 1 1
      rfl (by norm_num) (by norm_num) (by norm_num) (by norm_num)]
  dsimp only
  rw [show (1:ℚ) - 1 = 0 from by norm_num, show (4:ℕ) = 3 + 1 from rfl,
    consecutiveAdmits_succ,
    acquire_fail_step ⟨1, 1, true, true, 3/2⟩ 1 (1/1000) 1 (1/60000)
      rfl (by norm_num) (by norm_num)]
  norm_num

theorem twoLimiter_admits : RateLimiter.consecutiveAdmits twoLimiter 0 5 = 3 := by
  rw [twoState0, show (5:ℕ) = 4 + 1 from rfl, consecutiveAdmits_succ,
    acquire_success_step ⟨2, 2, true, true, 3/2⟩ 3 (1/500) 3 (1/30000) 3 3
      rfl (by norm_num) (by norm_num) (by norm_num) (by norm_num)]
  dsimp only
  rw [show (3:ℚ) - 1 = 2 from by norm_num, show (4:ℕ) = 3 + 1 from rfl,
    consecutiveAdmits_succ,
    acquire_success_step ⟨2, 2, true, true, 3/2⟩ 3 (1/500) 3 (1/30000) 2 2
      rfl (by norm_num) (by norm_num) (by norm_num) (by norm_num)]
  dsimp only
  rw [show (2:ℚ) - 1 = 1 from by norm_num, show (3:ℕ) = 2 + 1 from rfl,
    consecutiveAdmits_succ,
    acquire_success_step ⟨2, 2, true, true, 3/2⟩ 3 (1/500) 3 (1/30000) 1 1
      rfl (by norm_num) (by norm_num) (by norm_num) (by norm_num)]
  dsimp only
  rw [show (1:ℚ) - 1 = 0 from by norm_num, show (2:ℕ) = 1 + 1 from rfl,
    consecutiveAdmits_succ,
    acquire_fail_step ⟨2, 2, true, true, 3/2⟩ 3 (1/500) 3 (1/30000)
      rfl (by norm_num) (by norm_num)]
  norm_num

theorem twoLimiter_reset_admits :
    RateLimiter.consecutiveAdmits (twoLimiter.reset 0) 0 5 = 2 := by
  rw [twoReset, show (5:ℕ) = 4 + 1 from rfl, consecutiveAdmits_succ,
    acquire_success_step ⟨2, 2, true, true, 3/2⟩ 2 (1/500) 2 (1/30000) 2 2
      rfl (by norm_num) (by norm_num) (by norm_num) (by norm_num)]
  dsimp only
  rw [show (2:ℚ) - 1 = 1 from by norm_num, show (4:ℕ) = 3 + 1 from rfl,
    consecutiveAdmits_succ,
    acquire_success_step ⟨2, 2, true, true, 3/2⟩ 2 (1/500) 2 (1/30000) 1 1
      rfl (by norm_num) (by norm_num) (by norm_num) (by norm_num)]
  dsimp only
  rw [show (1:ℚ) - 1 = 0 from by norm_num, show (3:ℕ) = 2 + 1 from rfl,
    consecutiveAdmits_succ,
    acquire_fail_step ⟨2, 2, true, true, 3/2⟩ 2 (1/500) 2 (1/30000)
      rfl (by norm_num) (by norm_num)]
  norm_num

/-- C10 counterexample: for maxPerSecond = maxPerMinute = 1 with the default
burst options (allowBurst = true, multiplier 1.5) the fresh capacities
`floor(1·1.5) = 1` equal the plain maxima, so a limiter after `reset()`
admits exactly as many consecutive permits as a freshly constructed one —
not strictly fewer. -/
theorem reset_not_strictly_fewer_cex :
    oneLimiter.config.allowBurst = true ∧
    RateLimiter.consecutiveAdmits (oneLimiter.reset 0) 0 5 =
      RateLimiter.consecutiveAdmits oneLimiter 0 5 := by
  refine ⟨by rw [oneState0], ?_⟩
  rw [oneLimiter_reset_eq]

/-- C10 amended: `reset()` recreates both buckets with capacities exactly
maxPerSecond and maxPerMinute, full token levels and the plain refill
rates, independently of allowBurst and burstMultiplier.  The claimed
"strictly fewer consecutive permits after reset()" does not hold in
general: at maxPerSecond = maxPerMinute = 2 (where
`floor(2 · 1.5) = 3 > 2`) the limiter after `reset()` does admit strictly
fewer consecutive permits than a fresh one (2 versus 3), but at
maxPerSecond = maxPerMinute = 1 (where `floor(1 · 1.5) = 1`) `reset()`
reproduces the fresh limiter exactly and admits the same number. -/
theorem reset_spec (rl : RateLimiter) (now : ℚ) :
    ((rl.reset now).perSecondBucket.capacity = rl.config.maxPerSecond) ∧
    ((rl.reset now).perSecondBucket.tokens = rl.config.maxPerSecond) ∧
    ((rl.reset now).perSecondBucket.refillRate = rl.config.maxPerSecond / 1000) ∧
    ((rl.reset now).perMinuteBucket.capacity = rl.config.maxPerMinute) ∧
    ((rl.reset now).perMinuteBucket.tokens = rl.config.maxPerMinute) ∧
    ((rl.reset now).perMinuteBucket.refillRate = rl.config.maxPerMinute / 60000) ∧
    ((rl.reset now).config = rl.config) ∧
    (∀ (b : Bool) (q : ℚ),
      ({ rl with config :=
          { rl.config with allowBurst := b, burstMultiplier := q } } :
            RateLimiter).reset now =
        { rl.reset now with config :=
          { rl.config with allowBurst := b, burstMultiplier := q } }) ∧
    (RateLimiter.consecutiveAdmits (twoLimiter.reset 0) 0 5 = 2 ∧
     RateLimiter.consecutiveAdmits twoLimiter 0 5 = 3) ∧
    (RateLimiter.consecutiveAdmits (oneLimiter.reset 0) 0 5 =
      RateLimiter.consecutiveAdmits oneLimiter 0 5) := by
  refine ⟨rfl, rfl, rfl, rfl, rfl, rfl, rfl, fun b q => rfl,
    ⟨twoLimiter_reset_admits, twoLimiter_admits⟩, ?_⟩
  rw [oneLimiter_reset_eq]

namespace InMemoryQueue

theorem sortQueue_sorted {M : Type} (l : List (QueueItem M)) :
    (sortQueue l).Sorted (fun a b => b.priority ≤ a.priority) :=
  List.sorted_insertionSort _ l

theorem dequeue_eq_nil {M : Type} (q : InMemoryQueue M) (h : q.queue = []) :
    q.dequeue = (none, q) := by
  unfold dequeue
  rw [h]

theorem dequeue_eq_cons {M : Type} (q : InMemoryQueue M) (x : QueueItem M)
    (rest : List (QueueItem M)) (h : q.queue = x :: rest) :
    q.dequeue = (some x, { q with queue := rest }) := by
  unfold dequeue
  rw [h]

theorem sortedQ_applyOp {M : Type} (q : InMemoryQueue M) (op : QueueOp M)
    (h : SortedQ q) : SortedQ (applyOp q op) := by
  cases op with
  | enq message priority now =>
    show SortedQ (q.enqueue message priority now).2
    unfold enqueue
    split_ifs with hf
    · exact h
    · exact sortQueue_sorted _
  | deq =>
    show SortedQ (q.dequeue).2
    rcases hq : q.queue with _ | ⟨x, rest⟩
    · rw [dequeue_eq_nil q hq]
      exact h
    · rw [dequeue_eq_cons q x rest hq]
      have hcons : (x :: rest).Sorted (fun a b => b.priority ≤ a.priority) := by
        rw [← hq]; exact h
      exact hcons.of_cons
  | rem id =>
    show SortedQ (q.remove id).2
    unfold remove
    split_ifs with hf
    · exact h.sublist (List.eraseP_sublist _)
    · exact h

theorem sortedQ_runOps {M : Type} (maxSize : ℕ) (ops : List (QueueOp M)) :
    SortedQ (runOps maxSize ops) := by
  suffices h : ∀ q : InMemoryQueue M, SortedQ q → SortedQ (ops.foldl applyOp q) from
    h _ List.sorted_nil
  induction ops with
  | nil => exact fun _ hq => hq
  | cons op rest ih => exact fun q hq => ih _ (sortedQ_applyOp q op hq)

end InMemoryQueue

/-- C8: over any operation sequence, `dequeue` removes and returns the first
stored item, which carries the greatest priority among the items present
(strictly greater than every remaining item's priority when the present
priorities are pairwise distinct); `dequeue` on an empty queue signals empty
and leaves the queue untouched.  In particular, enqueuing priorities 1, 5, 3
and dequeuing three times yields priorities 5, 3, 1, and a fourth dequeue
signals empty. -/
theorem dequeue_highest_priority (M : Type) (maxSize : ℕ)
    (ops : List (InMemoryQueue.QueueOp M)) :
    ((InMemoryQueue.runOps maxSize ops).dequeue.1 = none ↔
      (InMemoryQueue.runOps maxSize ops).queue = []) ∧
    ((InMemoryQueue.runOps maxSize ops).queue = [] →
      (InMemoryQueue.runOps maxSize ops).dequeue =
        (none, InMemoryQueue.runOps maxSize ops)) ∧
    (∀ item, (InMemoryQueue.runOps maxSize ops).dequeue.1 = some item →
      (∀ x ∈ (InMemoryQueue.runOps maxSize ops).queue,
        x.priority ≤ item.priority) ∧
      ((InMemoryQueue.runOps maxSize ops).dequeue.2.queue =
        (InMemoryQueue.runOps maxSize ops).queue.tail) ∧
      ((InMemoryQueue.runOps maxSize ops).queue.Pairwise
          (fun a b => a.priority ≠ b.priority) →
        ∀ x ∈ (InMemoryQueue.runOps maxSize ops).dequeue.2.queue,
          x.priority < item.priority)) ∧
    (∀ (m1 m2 m3 : M) (t : ℕ),
      ((InMemoryQueue.runOps 0
          [.enq m1 1 t, .enq m2 5 t, .enq m3 3 t]).dequeue.1.map
        (fun i => i.priority) = some 5) ∧
      ((InMemoryQueue.runOps 0
          [.enq m1 1 t, .enq m2 5 t, .enq m3 3 t]).dequeue.2.dequeue.1.map
        (fun i => i.priority) = some 3) ∧
      ((InMemoryQueue.runOps 0
          [.enq m1 1 t, .enq m2 5 t,
            .enq m3 3 t]).dequeue.2.dequeue.2.dequeue.1.map
        (fun i => i.priority) = some 1) ∧
      ((InMemoryQueue.runOps 0
          [.enq m1 1 t, .enq m2 5 t,
            .enq m3 3 t]).dequeue.2.dequeue.2.dequeue.2.dequeue.1 = none)) := by
  have hs := InMemoryQueue.sortedQ_runOps maxSize ops
  refine ⟨?_, ?_, ?_, ?_⟩
  · rcases hq : (InMemoryQueue.runOps maxSize ops).queue with _ | ⟨x, rest⟩
    · rw [InMemoryQueue.dequeue_eq_nil _ hq]
      simp
    · rw [InMemoryQueue.dequeue_eq_cons _ x rest hq]
      simp
  · intro hq
    exact InMemoryQueue.dequeue_eq_nil _ hq
  · intro item hitem
    rcases hq : (InMemoryQueue.runOps maxSize ops).queue with _ | ⟨x, rest⟩
    · rw [InMemoryQueue.dequeue_eq_nil _ hq] at hitem
      cases hitem
    · rw [InMemoryQueue.dequeue_eq_cons _ x rest hq] at hitem
      obtain rfl : x = item := by simpa using hitem
      have hsorted : (x :: rest).Sorted (fun a b => b.priority ≤ a.priority) := by
        rw [InMemoryQueue.SortedQ, hq] at hs
        exact hs
      have hrest := List.rel_of_sorted_cons hsorted
      refine ⟨?_, ?_, ?_⟩
      · intro y hy
        rcases List.mem_cons.1 hy with hy | hy
        · rw [hy]
        · exact hrest y hy
      · rw [InMemoryQueue.dequeue_eq_cons _ x rest hq]
        rfl
      · intro hdist y hy
        rw [InMemoryQueue.dequeue_eq_cons _ x rest hq] at hy
        have hy2 : y ∈ rest := hy
        have hne : x.priority ≠ y.priority :=
          (List.pairwise_cons.1 hdist).1 y hy2
        exact lt_of_le_of_ne (hrest y hy2) (Ne.symm hne)
  · intro m1 m2 m3 t
    norm_num [InMemoryQueue.runOps, InMemoryQueue.applyOp,
      InMemoryQueue.enqueue, InMemoryQueue.create, InMemoryQueue.sortQueue,
      InMemoryQueue.dequeue, List.insertionSort, List.orderedInsert]

/-- C8 witness: the 1, 5, 3 scenario instantiated with natural-number
messages at time 0. -/
theorem dequeue_highest_priority_witness :
    ((InMemoryQueue.runOps (M := ℕ) 0
        [.enq 7 1 0, .enq 8 5 0, .enq 9 3 0]).dequeue.1.map
      (fun i => i.priority) = some 5) ∧
    ((InMemoryQueue.runOps (M := ℕ) 0
        [.enq 7 1 0, .enq 8 5 0, .enq 9 3 0]).dequeue.2.dequeue.1.map
      (fun i => i.priority) = some 3) ∧
    ((InMemoryQueue.runOps (M := ℕ) 0
        [.enq 7 1 0, .enq 8 5 0, .enq 9 3 0]).dequeue.2.dequeue.2.dequeue.1.map
      (fun i => i.priority) = some 1) ∧
    ((InMemoryQueue.runOps (M := ℕ) 0
        [.enq 7 1 0, .enq 8 5 0,
          .enq 9 3 0]).dequeue.2.dequeue.2.dequeue.2.dequeue.1 = none) :=
  (dequeue_highest_priority ℕ 0 []).2.2.2 7 8 9 0

end JxPush
